import Mathlib

/-!
Shallow embedding of the SSH certificate-authority core
(`ssh-certificate-authority-fns`): serial-number generation, template
policy validation (certificate type, principals, TTL), and the
file-based signing/key-generation operations.

JavaScript strings are modelled as Lean `String`; the JS operations
`includes` (single-character needle), `startsWith` and `endsWith` are
modelled on the underlying character lists.  Millisecond quantities are
modelled as `ℕ` and the JS number returned by the TTL resolver as `ℚ`
(JS division is exact rational division at these magnitudes).  The
ambient effects of the original code (randomness, the external
`ssh-keygen` process, the filesystem) are passed explicitly: random
bytes and the unique id are parameters, the external process outcome is
a parameter, and the filesystem is threaded as explicit state.
-/

/-- Models JS `s.includes(c)` for a single-character needle: membership
of the character in the string. -/
def jsIncludesChar (s : String) (c : Char) : Bool :=
  s.data.contains c

/-- Models JS `s.startsWith(pre)`. -/
def jsStartsWith (s pre : String) : Bool :=
  List.isPrefixOf pre.data s.data

/-- Models JS `s.endsWith(suf)`. -/
def jsEndsWith (s suf : String) : Bool :=
  List.isSuffixOf suf.data s.data

/-- Models JS `o?.includes(x) ?? false` (and `o?.includes(x)` in a
boolean position, where `undefined` is falsy) for a nullable string
array `o`. -/
def optIncludes (o : Option (List String)) (x : String) : Bool :=
  match o with
  | none => false
  | some l => l.contains x

/-- Models JS `o?.some(f)` in a boolean position (where `undefined` is
falsy) for a nullable string array `o`. -/
def optAny (o : Option (List String)) (f : String → Bool) : Bool :=
  match o with
  | none => false
  | some l => l.any f

/-- The SSH certificate type enum (`SshCertType`): `"user"` or `"host"`. -/
inductive SshCertType where
  | user
  | host
deriving DecidableEq, BEq, Repr

/-- The SSH certificate template record (`TSshCertificateTemplates`):
the fields read by the certificate-authority functions.  `allowedUsers`
and `allowedHosts` are nullable arrays in the schema, hence `Option`. -/
structure TSshCertificateTemplates where
  allowUserCertificates : Bool
  allowHostCertificates : Bool
  allowedUsers : Option (List String)
  allowedHosts : Option (List String)
  ttl : String
  maxTTL : String
deriving DecidableEq, Repr

/-- `BadRequestError`: the error thrown by the validation functions. -/
structure BadRequestError where
  message : String
deriving DecidableEq, Repr

/-- Modelled from the spec: the valid-username syntax used by
`isValidUserPattern` (from `ssh-certificate-template-validators`, which
is not part of the sources here).  Per §4.4 a username matches
"alphanumeric plus limited punctuation"; we fix the representative
grammar: nonempty, characters alphanumeric or one of `-`, `_`, `.`. -/
def isValidUserPattern (s : String) : Bool :=
  !s.isEmpty && s.data.all (fun c => c.isAlphanum || c == '-' || c == '_' || c == '.')

/-- A single character of valid-hostname syntax: alphanumeric, `-` or `.`. -/
def isValidHostChar (c : Char) : Bool :=
  c.isAlphanum || c == '-' || c == '.'

/-- Modelled from the spec: the valid-hostname syntax used by
`isValidHostPattern` (from `ssh-certificate-template-validators`, which
is not part of the sources here).  Per §4.4 and the §3 invariant a
concrete hostname never contains `*`; we fix the representative
grammar: nonempty, no leading or trailing dot, characters alphanumeric
or `-` or `.`. -/
def isValidHostPattern (s : String) : Bool :=
  !s.isEmpty && !(jsStartsWith s ".") && !(jsEndsWith s ".") && s.data.all isValidHostChar

/-- `validateSshCertificateType`: fail when the template forbids the
requested certificate type, otherwise succeed with no return value. -/
def validateSshCertificateType (template : TSshCertificateTemplates)
    (certType : SshCertType) : Except BadRequestError Unit :=
  if !template.allowUserCertificates && decide (certType = SshCertType.user) then
    Except.error ⟨"Failed to validate user certificate type due to template restriction"⟩
  else if !template.allowHostCertificates && decide (certType = SshCertType.host) then
    Except.error ⟨"Failed to validate host certificate type due to template restriction"⟩
  else
    Except.ok ()

/-- `validateSshCertificatePrincipals`: every requested principal must
be individually valid for the certificate type under the template. -/
def validateSshCertificatePrincipals (certType : SshCertType)
    (template : TSshCertificateTemplates) (principals : List String) : Bool :=
  match certType with
  | SshCertType.user =>
    let allowsAllUsers := optIncludes template.allowedUsers "*"
    principals.all fun principal =>
      if principal == "*" then false
      else if allowsAllUsers then isValidUserPattern principal
      else optIncludes template.allowedUsers principal
  | SshCertType.host =>
    let allowsAllHosts := optIncludes template.allowedHosts "*"
    principals.all fun principal =>
      if jsIncludesChar principal '*' then false
      else if allowsAllHosts then isValidHostPattern principal
      else
        isValidHostPattern principal &&
          optAny template.allowedHosts fun allowedHost =>
            if jsStartsWith allowedHost "*." then
              jsEndsWith principal ("." ++ allowedHost.drop 2)
            else
              principal == allowedHost

/-- The per-principal validity test for user certificates: the body of
the `every` callback in the `USER` branch of
`validateSshCertificatePrincipals`. -/
def validUserPrincipal (template : TSshCertificateTemplates) (principal : String) : Bool :=
  let allowsAllUsers := optIncludes template.allowedUsers "*"
  if principal == "*" then false
  else if allowsAllUsers then isValidUserPattern principal
  else optIncludes template.allowedUsers principal

/-- The per-principal validity test for host certificates: the body of
the `every` callback in the `HOST` branch of
`validateSshCertificatePrincipals`. -/
def validHostPrincipal (template : TSshCertificateTemplates) (principal : String) : Bool :=
  let allowsAllHosts := optIncludes template.allowedHosts "*"
  if jsIncludesChar principal '*' then false
  else if allowsAllHosts then isValidHostPattern principal
  else
    isValidHostPattern principal &&
      optAny template.allowedHosts fun allowedHost =>
        if jsStartsWith allowedHost "*." then
          jsEndsWith principal ("." ++ allowedHost.drop 2)
        else
          principal == allowedHost

/-- The per-principal validity test selected by certificate type. -/
def validPrincipal (certType : SshCertType) (template : TSshCertificateTemplates) :
    String → Bool :=
  match certType with
  | SshCertType.user => validUserPrincipal template
  | SshCertType.host => validHostPrincipal template

/-- Modelled from the spec: the external duration parser (§6, the `ms`
package, not part of the sources here), which "converts human-readable
duration strings (e.g., '1h', '30d') to milliseconds".  The grammar is
externally defined; we fix the representative grammar used by the spec
examples: a decimal integer followed by an optional unit among `ms`,
`s`, `m`, `h`, `d`, `w` (no unit meaning milliseconds); anything else
parses to 0. -/
def ms (s : String) : ℕ :=
  let digits := s.data.takeWhile Char.isDigit
  let unit := s.data.dropWhile Char.isDigit
  if digits.isEmpty then 0
  else
    let n := digits.foldl (fun acc c => acc * 10 + (c.toNat - 48)) 0
    if unit = [] then n
    else if unit = ['m', 's'] then n
    else if unit = ['s'] then n * 1000
    else if unit = ['m'] then n * 60000
    else if unit = ['h'] then n * 3600000
    else if unit = ['d'] then n * 86400000
    else if unit = ['w'] then n * 604800000
    else 0

/-- `validateSshCertificateTtl`: resolve the TTL to use for issuing the
certificate.  With no requested TTL (`undefined` or empty, both falsy)
the template default `ms(template.ttl)` is returned as is; with a
requested TTL, it is rejected when it exceeds `ms(template.maxTTL)` and
otherwise `ms(ttl) / 1000` is returned (JS exact division, hence `ℚ`). -/
def validateSshCertificateTtl (template : TSshCertificateTemplates)
    (ttl : Option String) : Except BadRequestError ℚ :=
  match ttl with
  | none => Except.ok (ms template.ttl)
  | some t =>
    if t.isEmpty then Except.ok (ms template.ttl)
    else if ms t > ms template.maxTTL then
      Except.error ⟨"Failed TTL validation due to TTL being greater than configured max TTL on template"⟩
    else
      Except.ok ((ms t : ℚ) / 1000)

/-- The 63-bit value computed by `createSshCertSerialNumber` from the 8
random bytes: the top bit of byte 0 is cleared (`randomBytes[0] &= 0x7f`)
and the bytes are read big-endian (`BigInt("0x" + hex)`). -/
def sshCertSerialValue (b : Fin 8 → ℕ) : ℕ :=
  let b0 := b 0 &&& 0x7f
  ((((((b0 * 256 + b 1) * 256 + b 2) * 256 + b 3) * 256 + b 4) * 256 + b 5) * 256 + b 6) * 256 + b 7

/-- `createSshCertSerialNumber`: render the 63-bit value drawn from the
8 random bytes as a base-10 string.  The random draw is passed as the
explicit parameter `b`. -/
def createSshCertSerialNumber (b : Fin 8 → ℕ) : String :=
  Nat.repr (sshCertSerialValue b)

/-- The filesystem state: an association list from file name to file
content (most recent write first). -/
abbrev FsState : Type := List (String × String)

/-- Models `fs.existsSync`. -/
def fsExists (fs : FsState) (f : String) : Bool :=
  fs.any (fun e => e.1 == f)

/-- Models `fs.unlinkSync` (on paths the code has checked or created). -/
def fsUnlink (fs : FsState) (f : String) : FsState :=
  fs.filter (fun e => e.1 != f)

/-- Models `fs.writeFileSync`: overwrite `f` with content `c`. -/
def fsWrite (fs : FsState) (f c : String) : FsState :=
  (f, c) :: fsUnlink fs f

/-- Models `fs.readFileSync`: `none` when the file is absent (the read
throws there). -/
def fsRead (fs : FsState) (f : String) : Option String :=
  (fs.find? (fun e => e.1 == f)).map (fun e => e.2)

/-- The CA key algorithms (`CertKeyAlgorithm`) accepted by
`createSshKeyPair`; any other enum value hits the `default` branch and
throws, and the spec (§4.1) lists exactly these four, so the model enum
has exactly these constructors. -/
inductive CertKeyAlgorithm where
  | RSA_2048
  | RSA_4096
  | ECDSA_P256
  | ECDSA_P384
deriving DecidableEq, Repr

/-- The signing request (`TCreateSshCertDTO`). -/
structure TCreateSshCertDTO where
  caPrivateKey : String
  userPublicKey : String
  keyId : String
  principals : List String
  ttl : ℚ
  certType : SshCertType
deriving DecidableEq, Repr

/-- `createSshCert`: materialize the requester public key and the CA
private key as temp files, invoke `ssh-keygen` to sign, read back the
signed artifact and unlink the three temp files.  Ambient effects are
explicit parameters: `uniqueId` is the random hex suffix, `serial` the
generated serial number, `execThrows` whether `execSync` throws, and
`signedOutput` the content (if any) the external tool leaves at the
signed-certificate path.  Returns the outcome (`Except.error ()` models
a thrown exception) together with the final filesystem state.  The
`unlinkSync` calls of the source run only on the path where both
`execSync` and `readFileSync` succeed; there is no `try`/`finally`. -/
def createSshCert (dto : TCreateSshCertDTO) (uniqueId serial : String)
    (execThrows : Bool) (signedOutput : Option String) (fs0 : FsState) :
    Except Unit (String × String) × FsState :=
  let publicKeyFile := "user_key_" ++ uniqueId ++ ".pub"
  let privateKeyFile := "ssh_ca_key_" ++ uniqueId
  let signedPublicKeyFile := "user_key_" ++ uniqueId ++ "-cert.pub"
  let fs1 := fsUnlink (fsUnlink (fsUnlink fs0 publicKeyFile) privateKeyFile) signedPublicKeyFile
  let fs2 := fsWrite fs1 publicKeyFile dto.userPublicKey
  let fs3 := fsWrite fs2 privateKeyFile dto.caPrivateKey
  if execThrows then (Except.error (), fs3)
  else
    let fs4 := match signedOutput with
      | some c => fsWrite fs3 signedPublicKeyFile c
      | none => fs3
    match fsRead fs4 signedPublicKeyFile with
    | none => (Except.error (), fs4)
    | some signedPublicKey =>
      let fs5 := fsUnlink (fsUnlink (fsUnlink fs4 publicKeyFile) privateKeyFile) signedPublicKeyFile
      (Except.ok (serial, signedPublicKey), fs5)

/-- `getSshPublicKey`: write the private key to an access-restricted
temp file, invoke `ssh-keygen -y` redirected to the public-key path,
read it back and unlink both files.  Parameters as in `createSshCert`;
`pubOut` is the content (if any) the external invocation leaves at the
public-key path.  The final `unlinkSync` calls run only when both the
invocation and the read succeed. -/
def getSshPublicKey (privateKey : String) (uniqueId : String)
    (execThrows : Bool) (pubOut : Option String) (fs0 : FsState) :
    Except Unit String × FsState :=
  let privateKeyFile := "ssh_key_" ++ uniqueId
  let publicKeyFile := privateKeyFile ++ ".pub"
  let fs1 := fsUnlink (fsUnlink fs0 publicKeyFile) privateKeyFile
  let fs2 := fsWrite fs1 privateKeyFile privateKey
  if execThrows then (Except.error (), fs2)
  else
    let fs3 := match pubOut with
      | some c => fsWrite fs2 publicKeyFile c
      | none => fs2
    match fsRead fs3 publicKeyFile with
    | none => (Except.error (), fs3)
    | some publicKey =>
      let fs4 := fsUnlink (fsUnlink fs3 privateKeyFile) publicKeyFile
      (Except.ok publicKey, fs4)

/-- `createSshKeyPair`: pick the key type and bit length for the
algorithm, invoke `ssh-keygen` (which creates the private- and
public-key files, modelled by `privOut`/`pubOut`), read both files back
and unlink them.  The final `unlinkSync` calls run only when the
invocation and both reads succeed. -/
def createSshKeyPair (keyAlgorithm : CertKeyAlgorithm) (comment : String)
    (uniqueId : String) (execThrows : Bool) (privOut pubOut : Option String)
    (fs0 : FsState) : Except Unit (String × String) × FsState :=
  let privateKeyFile := "ssh_key_" ++ uniqueId
  let publicKeyFile := privateKeyFile ++ ".pub"
  let fs1 := fsUnlink (fsUnlink fs0 publicKeyFile) privateKeyFile
  let _keyParams : String × String :=
    match keyAlgorithm with
    | CertKeyAlgorithm.RSA_2048 => ("rsa", "2048")
    | CertKeyAlgorithm.RSA_4096 => ("rsa", "4096")
    | CertKeyAlgorithm.ECDSA_P256 => ("ecdsa", "256")
    | CertKeyAlgorithm.ECDSA_P384 => ("ecdsa", "384")
  if execThrows then (Except.error (), fs1)
  else
    let fs2 := match privOut with
      | some c => fsWrite fs1 privateKeyFile c
      | none => fs1
    let fs3 := match pubOut with
      | some c => fsWrite fs2 publicKeyFile c
      | none => fs2
    match fsRead fs3 publicKeyFile with
    | none => (Except.error (), fs3)
    | some publicKey =>
      match fsRead fs3 privateKeyFile with
      | none => (Except.error (), fs3)
      | some privateKey =>
        let fs4 := fsUnlink (fsUnlink fs3 privateKeyFile) publicKeyFile
        (Except.ok (publicKey, privateKey), fs4)

/-- A template allowing both certificate types, with the spec's example
TTLs (`ttl = "1h"`, `maxTTL = "2h"`) and wildcard principal policies. -/
def tmplAllowAll : TSshCertificateTemplates :=
  { allowUserCertificates := true
    allowHostCertificates := true
    allowedUsers := some ["*"]
    allowedHosts := some ["*"]
    ttl := "1h"
    maxTTL := "2h" }

/-- The spec's host-policy example template: `allowedHosts = ["*.example.com"]`. -/
def tmplHostsWildcardExample : TSshCertificateTemplates :=
  { allowUserCertificates := true
    allowHostCertificates := true
    allowedUsers := none
    allowedHosts := some ["*.example.com"]
    ttl := "1h"
    maxTTL := "2h" }

/-- A concrete signing request used to evaluate `createSshCert`. -/
def exDTO : TCreateSshCertDTO :=
  { caPrivateKey := "CA-PRIVATE-KEY"
    userPublicKey := "USER-PUBLIC-KEY"
    keyId := "alice"
    principals := ["alice"]
    ttl := 3600
    certType := SshCertType.user }

/-! ### Helper lemmas -/

/-- A list-`all` is false as soon as one member fails the test. -/
theorem all_eq_false_of_mem {l : List String} {f : String → Bool} {a : String}
    (h : a ∈ l) (hf : f a = false) : l.all f = false := by
  rw [List.all_eq_false]
  exact ⟨a, h, by simp [hf]⟩

/-- `List.all` is invariant under permutation of the list. -/
theorem all_eq_of_perm (f : String → Bool) {p q : List String} (h : p.Perm q) :
    p.all f = q.all f := by
  induction h with
  | nil => rfl
  | cons x _ ih => simp [List.all_cons, ih]
  | swap x y l => simp [List.all_cons, ← Bool.and_assoc, Bool.and_comm (f y) (f x)]
  | trans _ _ ih1 ih2 => exact ih1.trans ih2

/-- A string starting with `"*."` contains the character `*`. -/
theorem jsIncludesChar_star_of_jsStartsWith {p : String}
    (h : jsStartsWith p "*." = true) : jsIncludesChar p '*' = true := by
  unfold jsStartsWith at h
  unfold jsIncludesChar
  have hd : "*.".data = ['*', '.'] := by decide
  rw [hd] at h
  cases hp : p.data with
  | nil => rw [hp] at h; simp [List.isPrefixOf] at h
  | cons a l =>
    rw [hp] at h
    simp [List.isPrefixOf] at h
    simp [List.contains]
    exact Or.inl h.1

/-- A string of valid-hostname syntax contains no `*` character. -/
theorem jsIncludesChar_star_eq_false_of_valid {p : String}
    (h : isValidHostPattern p = true) : jsIncludesChar p '*' = false := by
  unfold isValidHostPattern at h
  simp only [Bool.and_eq_true, List.all_eq_true] at h
  obtain ⟨-, hall⟩ := h
  unfold jsIncludesChar
  by_contra hne
  rw [Bool.not_eq_false] at hne
  have hmem : '*' ∈ p.data := by simpa [List.contains] using hne
  have := hall '*' hmem
  exact absurd this (by decide)

/-- The user branch of `validateSshCertificatePrincipals` is the
list-`all` of the per-principal test. -/
theorem validate_user_eq_all (t : TSshCertificateTemplates) (ps : List String) :
    validateSshCertificatePrincipals SshCertType.user t ps = ps.all (validUserPrincipal t) :=
  rfl

/-- The host branch of `validateSshCertificatePrincipals` is the
list-`all` of the per-principal test. -/
theorem validate_host_eq_all (t : TSshCertificateTemplates) (ps : List String) :
    validateSshCertificatePrincipals SshCertType.host t ps = ps.all (validHostPrincipal t) :=
  rfl

/-! ### Claim theorems -/

/-- C7: `validateSshCertificateType` fails (with the policy-violation
error) iff the certificate type is host and host certificates are
disallowed, or the type is user and user certificates are disallowed;
otherwise it succeeds with no return value. -/
theorem validateSshCertificateType_spec :
    ∀ (t : TSshCertificateTemplates) (c : SshCertType),
      ((∃ e, validateSshCertificateType t c = Except.error e) ↔
        ((c = SshCertType.host ∧ t.allowHostCertificates = false) ∨
         (c = SshCertType.user ∧ t.allowUserCertificates = false))) ∧
      (¬((c = SshCertType.host ∧ t.allowHostCertificates = false) ∨
         (c = SshCertType.user ∧ t.allowUserCertificates = false)) →
        validateSshCertificateType t c = Except.ok ()) := by
  intro t c
  cases c <;>
    cases hU : t.allowUserCertificates <;>
      cases hH : t.allowHostCertificates <;>
        simp [validateSshCertificateType, hU, hH]

/-- C7 witness: with a template allowing both types, a user request
passes the type check. -/
theorem validateSshCertificateType_spec_witness :
    validateSshCertificateType tmplAllowAll SshCertType.user = Except.ok () :=
  (validateSshCertificateType_spec tmplAllowAll SshCertType.user).2 (by decide)

/-- C8: the two validators are deterministic: identical inputs produce
identical outcomes.  Both embed as pure functions because the source
functions read only their arguments and perform no I/O or mutation. -/
theorem validators_deterministic :
    ∀ (c₁ c₂ : SshCertType) (t₁ t₂ : TSshCertificateTemplates) (ps₁ ps₂ : List String),
      c₁ = c₂ → t₁ = t₂ → ps₁ = ps₂ →
      validateSshCertificatePrincipals c₁ t₁ ps₁ = validateSshCertificatePrincipals c₂ t₂ ps₂ ∧
      validateSshCertificateType t₁ c₁ = validateSshCertificateType t₂ c₂ := by
  intro c₁ c₂ t₁ t₂ ps₁ ps₂ hc ht hp
  subst hc; subst ht; subst hp
  exact ⟨rfl, rfl⟩

/-- C8 witness: determinism at a concrete input. -/
theorem validators_deterministic_witness :
    validateSshCertificatePrincipals SshCertType.user tmplAllowAll ["alice"] =
      validateSshCertificatePrincipals SshCertType.user tmplAllowAll ["alice"] ∧
    validateSshCertificateType tmplAllowAll SshCertType.user =
      validateSshCertificateType tmplAllowAll SshCertType.user :=
  validators_deterministic SshCertType.user SshCertType.user tmplAllowAll tmplAllowAll
    ["alice"] ["alice"] rfl rfl rfl

/-- C9: `validateSshCertificatePrincipals` is the conjunction (`all`) of
a per-principal validity test over the list, and is therefore invariant
under any permutation of the principals list. -/
theorem validatePrincipals_all_and_perm :
    ∀ (c : SshCertType) (t : TSshCertificateTemplates) (ps qs : List String),
      validateSshCertificatePrincipals c t ps = ps.all (validPrincipal c t) ∧
      (ps.Perm qs →
        validateSshCertificatePrincipals c t ps = validateSshCertificatePrincipals c t qs) := by
  intro c t ps qs
  constructor
  · cases c
    · exact validate_user_eq_all t ps
    · exact validate_host_eq_all t ps
  · intro hperm
    cases c
    · rw [validate_user_eq_all, validate_user_eq_all]
      exact all_eq_of_perm _ hperm
    · rw [validate_host_eq_all, validate_host_eq_all]
      exact all_eq_of_perm _ hperm

/-- C9 witness: permutation invariance at a concrete pair of lists. -/
theorem validatePrincipals_all_and_perm_witness :
    validateSshCertificatePrincipals SshCertType.user tmplAllowAll ["alice", "bob"] =
      validateSshCertificatePrincipals SshCertType.user tmplAllowAll ["bob", "alice"] :=
  (validatePrincipals_all_and_perm SshCertType.user tmplAllowAll
    ["alice", "bob"] ["bob", "alice"]).2 (List.Perm.swap "bob" "alice" [])

/-- C10: the empty principals list passes principal validation for
either certificate type and any template, including templates with
absent `allowedUsers`/`allowedHosts`. -/
theorem validatePrincipals_empty :
    ∀ (t : TSshCertificateTemplates) (c : SshCertType),
      validateSshCertificatePrincipals c t [] = true := by
  intro t c
  cases c <;> rfl

/-- C4: a literal `"*"` in the principals list makes user-certificate
principal validation fail, and any principal containing a `*` character
makes host-certificate principal validation fail, regardless of the
template's `allowedUsers`/`allowedHosts`. -/
theorem wildcard_principals_rejected :
    ∀ (t : TSshCertificateTemplates) (ps : List String),
      ("*" ∈ ps → validateSshCertificatePrincipals SshCertType.user t ps = false) ∧
      (∀ p ∈ ps, jsIncludesChar p '*' = true →
        validateSshCertificatePrincipals SshCertType.host t ps = false) := by
  intro t ps
  constructor
  · intro hmem
    rw [validate_user_eq_all]
    exact all_eq_false_of_mem hmem (by simp [validUserPrincipal])
  · intro p hmem hstar
    rw [validate_host_eq_all]
    exact all_eq_false_of_mem hmem (by simp [validHostPrincipal, hstar])

/-- C4 witness: the wildcard user principal and a starred host
principal are rejected under the all-allowing template. -/
theorem wildcard_principals_rejected_witness :
    validateSshCertificatePrincipals SshCertType.user tmplAllowAll ["alice", "*"] = false ∧
    validateSshCertificatePrincipals SshCertType.host tmplAllowAll ["*.example.com"] = false :=
  ⟨(wildcard_principals_rejected tmplAllowAll ["alice", "*"]).1 (by decide),
   (wildcard_principals_rejected tmplAllowAll ["*.example.com"]).2 "*.example.com"
     (by decide) (by decide)⟩

/-- C6: with the top bit of the first of 8 random bytes cleared, the
serial value is below `2 ^ 63`, and the returned string is its base-10
rendering. -/
theorem createSshCertSerialNumber_range :
    ∀ b : Fin 8 → ℕ, (∀ i, b i < 256) →
      sshCertSerialValue b < 2 ^ 63 ∧
      createSshCertSerialNumber b = Nat.repr (sshCertSerialValue b) := by
  intro b hb
  refine ⟨?_, rfl⟩
  have h0 : b 0 &&& 0x7f ≤ 0x7f := Nat.and_le_right
  have h1 := hb 1
  have h2 := hb 2
  have h3 := hb 3
  have h4 := hb 4
  have h5 := hb 5
  have h6 := hb 6
  have h7 := hb 7
  show (((((((b 0 &&& 0x7f) * 256 + b 1) * 256 + b 2) * 256 + b 3) * 256 + b 4) * 256 + b 5) * 256 + b 6) * 256 + b 7 < 2 ^ 63
  omega

/-- C6 witness: all-ones bytes stay below `2 ^ 63`. -/
theorem createSshCertSerialNumber_range_witness :
    sshCertSerialValue (fun _ => 255) < 2 ^ 63 ∧
    createSshCertSerialNumber (fun _ => 255) = Nat.repr (sshCertSerialValue (fun _ => 255)) :=
  createSshCertSerialNumber_range (fun _ => 255) (fun _ => Nat.lt.base 255)

/-- The membership test of the host branch over the allowed-hosts
entries matches exact membership or a wildcard-subdomain entry, for a
principal containing no `*`. -/
theorem optAny_host_match (hosts : Option (List String)) (p : String)
    (hstar : jsIncludesChar p '*' = false) :
    optAny hosts (fun allowedHost =>
        if jsStartsWith allowedHost "*." then
          jsEndsWith p ("." ++ allowedHost.drop 2)
        else
          p == allowedHost) = true ↔
      (optIncludes hosts p = true ∨
       ∃ ah ∈ hosts.getD [],
         jsStartsWith ah "*." = true ∧ jsEndsWith p ("." ++ ah.drop 2) = true) := by
  cases hosts with
  | none => simp [optAny, optIncludes]
  | some l =>
    simp only [optAny, optIncludes, Option.getD_some]
    rw [List.any_eq_true]
    constructor
    · rintro ⟨ah, hmem, hg⟩
      by_cases hs : jsStartsWith ah "*." = true
      · exact Or.inr ⟨ah, hmem, hs, by simpa [hs] using hg⟩
      · left
        have hpe : p = ah := by simpa [hs] using hg
        have : p ∈ l := hpe ▸ hmem
        simpa [List.contains] using this
    · rintro (hc | ⟨ah, hmem, hs, he⟩)
      · have hpmem : p ∈ l := by simpa [List.contains] using hc
        refine ⟨p, hpmem, ?_⟩
        have hnstart : jsStartsWith p "*." = false := by
          by_contra hx
          rw [Bool.not_eq_false] at hx
          have := jsIncludesChar_star_of_jsStartsWith hx
          rw [this] at hstar
          exact absurd hstar (by simp)
        simp [hnstart]
      · exact ⟨ah, hmem, by simp [hs, he]⟩

/-- C5: for host certificates under a template whose `allowedHosts`
lacks the bare `"*"`, a principal is accepted iff it has valid-hostname
syntax and is either an exact member of `allowedHosts` or a
wildcard-subdomain match of some `"*.D"` entry; and the spec's
`*.example.com` examples behave as stated. -/
theorem validatePrincipals_host_allowedHosts :
    (∀ (t : TSshCertificateTemplates) (p : String),
      optIncludes t.allowedHosts "*" = false →
      (validateSshCertificatePrincipals SshCertType.host t [p] = true ↔
        isValidHostPattern p = true ∧
          (optIncludes t.allowedHosts p = true ∨
           ∃ ah ∈ t.allowedHosts.getD [],
             jsStartsWith ah "*." = true ∧ jsEndsWith p ("." ++ ah.drop 2) = true))) ∧
    validateSshCertificatePrincipals SshCertType.host tmplHostsWildcardExample
      ["a.example.com"] = true ∧
    validateSshCertificatePrincipals SshCertType.host tmplHostsWildcardExample
      ["notexample.com"] = false ∧
    validateSshCertificatePrincipals SshCertType.host tmplHostsWildcardExample
      ["example.com"] = false := by
  refine ⟨?_, by decide, by decide, by decide⟩
  intro t p hAll
  have hsingle : validateSshCertificatePrincipals SshCertType.host t [p] =
      validHostPrincipal t p := by
    rw [validate_host_eq_all]
    simp
  rw [hsingle]
  unfold validHostPrincipal
  rw [hAll]
  by_cases hstar : jsIncludesChar p '*' = true
  · simp only [hstar, if_true, Bool.false_eq_true, false_iff, if_false]
    rintro ⟨hv, -⟩
    rw [jsIncludesChar_star_eq_false_of_valid hv] at hstar
    exact absurd hstar (by simp)
  · rw [Bool.not_eq_true] at hstar
    simp only [hstar, Bool.false_eq_true, if_false]
    rw [Bool.and_eq_true]
    exact and_congr_right fun _ => optAny_host_match t.allowedHosts p hstar

/-- C5 witness: the accepted subdomain example, produced through the
general equivalence. -/
theorem validatePrincipals_host_allowedHosts_witness :
    validateSshCertificatePrincipals SshCertType.host tmplHostsWildcardExample
      ["a.example.com"] = true :=
  (validatePrincipals_host_allowedHosts.1 tmplHostsWildcardExample "a.example.com"
    (by decide)).mpr ⟨by decide, Or.inr ⟨"*.example.com", by decide, by decide, by decide⟩⟩

/-- `ms` on the spec's example duration strings. -/
theorem ms_1h : ms "1h" = 3600000 := by decide

/-- `ms "2h"` in milliseconds. -/
theorem ms_2h : ms "2h" = 7200000 := by decide

/-- `ms "90m"` in milliseconds. -/
theorem ms_90m : ms "90m" = 5400000 := by decide

/-- `ms "3h"` in milliseconds. -/
theorem ms_3h : ms "3h" = 10800000 := by decide

/-- `ms "0s"` in milliseconds. -/
theorem ms_0s : ms "0s" = 0 := by decide

/-- The TTL resolver on the example template with no requested TTL:
`ms(template.ttl)` is returned undivided. -/
theorem ttl_default_eval :
    validateSshCertificateTtl tmplAllowAll none = Except.ok 3600000 := by
  show Except.ok ((ms tmplAllowAll.ttl : ℕ) : ℚ) = Except.ok 3600000
  have : ms tmplAllowAll.ttl = 3600000 := ms_1h
  rw [this]
  norm_num

/-- The TTL resolver on the example template with requested TTL `"90m"`. -/
theorem ttl_90m_eval :
    validateSshCertificateTtl tmplAllowAll (some "90m") = Except.ok 5400 := by
  have hne : "90m".isEmpty = false := by decide
  have hcmp : ¬(ms "90m" > ms tmplAllowAll.maxTTL) := by
    rw [ms_90m]
    rw [show tmplAllowAll.maxTTL = "2h" from rfl, ms_2h]
    omega
  simp only [validateSshCertificateTtl, hne, Bool.false_eq_true, if_false, hcmp, ite_false]
  rw [ms_90m]
  norm_num

/-- The TTL resolver on the example template with requested TTL `"0s"`. -/
theorem ttl_0s_eval :
    validateSshCertificateTtl tmplAllowAll (some "0s") = Except.ok 0 := by
  have hne : "0s".isEmpty = false := by decide
  have hcmp : ¬(ms "0s" > ms tmplAllowAll.maxTTL) := by
    rw [ms_0s]
    omega
  simp only [validateSshCertificateTtl, hne, Bool.false_eq_true, if_false, hcmp, ite_false]
  rw [ms_0s]
  norm_num

/-- The TTL resolver on the example template with requested TTL `"3h"`. -/
theorem ttl_3h_eval :
    validateSshCertificateTtl tmplAllowAll (some "3h") =
      Except.error ⟨"Failed TTL validation due to TTL being greater than configured max TTL on template"⟩ := by
  have hne : "3h".isEmpty = false := by decide
  have hcmp : ms "3h" > ms tmplAllowAll.maxTTL := by
    rw [ms_3h, show tmplAllowAll.maxTTL = "2h" from rfl, ms_2h]
    omega
  simp only [validateSshCertificateTtl, hne, Bool.false_eq_true, if_false, hcmp, ite_true]

/-- C1: the TTL resolver on `ttl = "1h"`, `maxTTL = "2h"`.  With no
requested TTL the code returns `ms(template.ttl) = 3600000`
(milliseconds, not the documented seconds); with a requested TTL the
claimed behaviour holds (`"90m"` resolves to `5400`, `"3h"` is
rejected). -/
theorem validateSshCertificateTtl_default_milliseconds :
    validateSshCertificateTtl tmplAllowAll none = Except.ok 3600000 ∧
    (3600000 : ℚ) ≠ 3600 ∧
    validateSshCertificateTtl tmplAllowAll (some "90m") = Except.ok 5400 ∧
    validateSshCertificateTtl tmplAllowAll (some "3h") =
      Except.error ⟨"Failed TTL validation due to TTL being greater than configured max TTL on template"⟩ :=
  ⟨ttl_default_eval, by norm_num, ttl_90m_eval, ttl_3h_eval⟩

/-- C2 counterexample: the resolved TTL is not always positive (a
requested `"0s"` resolves to `0`) and not always at most
`maxTTL` in seconds (with no requested TTL, `ttl = "1h"` resolves to
`3600000`, far above the `7200` seconds of `maxTTL = "2h"`). -/
theorem resolvedTtl_invariant_counterexample :
    validateSshCertificateTtl tmplAllowAll (some "0s") = Except.ok 0 ∧
    ¬(0 < (0 : ℚ)) ∧
    validateSshCertificateTtl tmplAllowAll none = Except.ok 3600000 ∧
    (ms tmplAllowAll.maxTTL : ℚ) / 1000 = 7200 ∧
    ¬((3600000 : ℚ) ≤ 7200) := by
  refine ⟨ttl_0s_eval, by norm_num, ttl_default_eval, ?_, by norm_num⟩
  rw [show tmplAllowAll.maxTTL = "2h" from rfl, ms_2h]
  norm_num

/-- C2 amended: when a nonempty TTL is requested and parses to a
positive number of milliseconds, a successful resolution is positive
and at most `maxTTL` converted to seconds. -/
theorem validateSshCertificateTtl_pos_le_max :
    ∀ (t : TSshCertificateTemplates) (req : String) (r : ℚ),
      req.isEmpty = false → 0 < ms req →
      validateSshCertificateTtl t (some req) = Except.ok r →
      0 < r ∧ r ≤ (ms t.maxTTL : ℚ) / 1000 := by
  intro t req r hne hpos heq
  simp only [validateSshCertificateTtl, hne, Bool.false_eq_true, if_false] at heq
  by_cases hcmp : ms req > ms t.maxTTL
  · rw [if_pos hcmp] at heq
    exact absurd heq (by simp)
  · rw [if_neg hcmp] at heq
    simp only [Except.ok.injEq] at heq
    subst heq
    constructor
    · exact div_pos (by exact_mod_cast hpos) (by norm_num)
    · gcongr
      exact_mod_cast le_of_not_lt hcmp

/-- C2 witness: `"90m"` under `maxTTL = "2h"` resolves to `5400`,
positive and at most `7200`. -/
theorem validateSshCertificateTtl_pos_le_max_witness :
    0 < (5400 : ℚ) ∧ (5400 : ℚ) ≤ (ms tmplAllowAll.maxTTL : ℚ) / 1000 :=
  validateSshCertificateTtl_pos_le_max tmplAllowAll "90m" 5400 (by decide) (by decide)
    ttl_90m_eval

/-- C3: when the external `ssh-keygen` invocation throws, `createSshCert`
propagates the exception without returning a result, but its temporary
files — including the CA private key — remain on disk, because the
`unlinkSync` calls run only after a successful invocation and read; the
same holds for `getSshPublicKey`.  On the fully successful path all
temporary files are removed. -/
theorem createSshCert_execFailure_leaves_artifacts :
    (createSshCert exDTO "abc" "42" true none []).1.isOk = false ∧
    fsRead (createSshCert exDTO "abc" "42" true none []).2 "ssh_ca_key_abc" =
      some "CA-PRIVATE-KEY" ∧
    fsExists (createSshCert exDTO "abc" "42" true none []).2 "user_key_abc.pub" = true ∧
    (getSshPublicKey "CA-PRIVATE-KEY" "xyz" true none []).1.isOk = false ∧
    fsRead (getSshPublicKey "CA-PRIVATE-KEY" "xyz" true none []).2 "ssh_key_xyz" =
      some "CA-PRIVATE-KEY" ∧
    (createSshCert exDTO "abc" "42" false (some "SIGNED-CERT") []).2 = [] := by
  decide
